import Mathlib

/-!
Verification of the draw-target core of the paintgl repository
(`src/DrawTarget.ts`).

The repository's own code (the `DrawTarget` class hierarchy) is embedded
directly from `src/DrawTarget.ts`.  The geometry value types `Vec2`, `Rect`
and `Transform` come from the external `paintvec` collaborator whose source
is not part of this repository; they are modelled from the specification's
descriptions (flip correction, integer-bounding rounding, rectangle
intersection, transform merging where `a.merge b` applies `a` first and
then `b`, as forced by the spec's concrete normalization scenarios).
JavaScript numbers are idealized as rationals.
-/

namespace PaintGL

/-- Modelled from the spec: the `paintvec` 2D vector collaborator.  A pair of
numbers; `width`/`height` alias `x`/`y`. -/
structure Vec2 where
  x : ℚ
  y : ℚ
deriving DecidableEq, Repr

/-- Alias used by `paintvec`: the width of a size vector is its `x`. -/
def Vec2.width (v : Vec2) : ℚ := v.x

/-- Alias used by `paintvec`: the height of a size vector is its `y`. -/
def Vec2.height (v : Vec2) : ℚ := v.y

/-- Componentwise floor. -/
def Vec2.floor (v : Vec2) : Vec2 := ⟨(⌊v.x⌋ : ℚ), (⌊v.y⌋ : ℚ)⟩

/-- Componentwise ceiling. -/
def Vec2.ceil (v : Vec2) : Vec2 := ⟨(⌈v.x⌉ : ℚ), (⌈v.y⌉ : ℚ)⟩

/-- Modelled from the spec: the `paintvec` axis-aligned rectangle, stored as
top-left and bottom-right corners (origin + extent view via accessors). -/
structure Rect where
  topLeft : Vec2
  bottomRight : Vec2
deriving DecidableEq, Repr

def Rect.left (r : Rect) : ℚ := r.topLeft.x

def Rect.top (r : Rect) : ℚ := r.topLeft.y

def Rect.right (r : Rect) : ℚ := r.bottomRight.x

def Rect.bottom (r : Rect) : ℚ := r.bottomRight.y

def Rect.width (r : Rect) : ℚ := r.right - r.left

def Rect.height (r : Rect) : ℚ := r.bottom - r.top

/-- Modelled from the spec: rounding a rectangle "to integer pixel bounds"
is the integer bounding rectangle: floor the top-left corner and ceil the
bottom-right corner. -/
def Rect.intBounding (r : Rect) : Rect := ⟨r.topLeft.floor, r.bottomRight.ceil⟩

/-- Modelled from the spec: rectangle intersection; returns the overlap
rectangle when it is non-empty (positive area) and nothing otherwise. -/
def Rect.intersection (a b : Rect) : Option Rect :=
  let left := max a.left b.left
  let top := max a.top b.top
  let right := min a.right b.right
  let bottom := min a.bottom b.bottom
  if left < right ∧ top < bottom then
    some ⟨⟨left, top⟩, ⟨right, bottom⟩⟩
  else
    none

/-- Modelled from the spec: the `paintvec` 3×3 transform matrix, acting on
row vectors `(x, y, 1)` on the right. -/
structure Transform where
  m00 : ℚ
  m01 : ℚ
  m02 : ℚ
  m10 : ℚ
  m11 : ℚ
  m12 : ℚ
  m20 : ℚ
  m21 : ℚ
  m22 : ℚ
deriving DecidableEq, Repr

/-- The default `new Transform()`: the identity matrix. -/
def Transform.identity : Transform := ⟨1, 0, 0, 0, 1, 0, 0, 0, 1⟩

/-- Modelled from the spec: `a.merge b` is the transform that applies `a`
first and then `b`; in the row-vector convention that is the matrix product
`a * b`. -/
def Transform.merge (a b : Transform) : Transform :=
  ⟨a.m00 * b.m00 + a.m01 * b.m10 + a.m02 * b.m20,
   a.m00 * b.m01 + a.m01 * b.m11 + a.m02 * b.m21,
   a.m00 * b.m02 + a.m01 * b.m12 + a.m02 * b.m22,
   a.m10 * b.m00 + a.m11 * b.m10 + a.m12 * b.m20,
   a.m10 * b.m01 + a.m11 * b.m11 + a.m12 * b.m21,
   a.m10 * b.m02 + a.m11 * b.m12 + a.m12 * b.m22,
   a.m20 * b.m00 + a.m21 * b.m10 + a.m22 * b.m20,
   a.m20 * b.m01 + a.m21 * b.m11 + a.m22 * b.m21,
   a.m20 * b.m02 + a.m21 * b.m12 + a.m22 * b.m22⟩

/-- Scaling transform. -/
def Transform.scale (v : Vec2) : Transform := ⟨v.x, 0, 0, 0, v.y, 0, 0, 0, 1⟩

/-- Translation transform. -/
def Transform.translate (v : Vec2) : Transform := ⟨1, 0, 0, 0, 1, 0, v.x, v.y, 1⟩

/-- Applying a transform to a point: row vector `(x, y, 1)` times the matrix,
followed by the perspective division. -/
def Vec2.transform (v : Vec2) (t : Transform) : Vec2 :=
  let x := v.x * t.m00 + v.y * t.m10 + t.m20
  let y := v.x * t.m01 + v.y * t.m11 + t.m21
  let w := v.x * t.m02 + v.y * t.m12 + t.m22
  ⟨x / w, y / w⟩

/-- Modelled from the spec: observable calls issued to the opaque GL device
collaborator (binding, attaching and destroying resources). -/
inductive GLCall where
  | bindFramebuffer (framebuffer : Option ℕ)
  | framebufferTexture2D (framebuffer : ℕ) (texture : ℕ)
  | deleteFramebuffer (framebuffer : ℕ)
  | deleteTexture (texture : ℕ)
deriving DecidableEq, Repr

/-- Modelled from the spec: the mutable bind-point state of the GL device
that target activation overwrites (scissor enable, scissor rectangle as the
`(x, y, w, h)` passed to the device, and viewport). -/
structure GLState where
  scissorTestEnabled : Bool
  scissorRect : ℚ × ℚ × ℚ × ℚ
  viewport : ℚ × ℚ × ℚ × ℚ
deriving DecidableEq, Repr

/-- The state of an abstract `DrawTarget` from `src/DrawTarget.ts`: its size,
optional scissor (clip) rectangle, `flipY` flag, and global transform. -/
structure DrawTarget where
  size : Vec2
  scissor : Option Rect
  flipY : Bool
  transform : Transform

/-- `DrawTarget._flipRect` from `src/DrawTarget.ts` lines 90–98: when `flipY`
is set, mirror the vertical extent around the target height. -/
def DrawTarget._flipRect (t : DrawTarget) (rect : Rect) : Rect :=
  if t.flipY then
    Rect.mk (Vec2.mk rect.left (t.size.height - rect.bottom))
      (Vec2.mk rect.right (t.size.height - rect.top))
  else
    rect

/-- `DrawTarget.use` from `src/DrawTarget.ts` lines 73–88, as a transition on
the device bind-point state: scissor handling followed by the viewport. -/
def DrawTarget.use (t : DrawTarget) (s : GLState) : GLState :=
  let s1 :=
    match t.scissor with
    | some scissor =>
      let drawableRect : Rect := ⟨⟨0, 0⟩, t.size⟩
      match ((t._flipRect scissor).intBounding).intersection drawableRect with
      | some rect =>
        { s with scissorTestEnabled := true,
                 scissorRect := (rect.left, rect.top, rect.width, rect.height) }
      | none =>
        { s with scissorTestEnabled := true, scissorRect := (0, 0, 0, 0) }
    | none => { s with scissorTestEnabled := false }
  { s1 with viewport := (0, 0, t.size.x, t.size.y) }

/-- The effective transform computed by `DrawTarget.draw` (lines 42–54) and
passed to `model.draw`. -/
def DrawTarget.drawTransform (t : DrawTarget) : Transform :=
  let transform :=
    (t.transform.merge
      (Transform.scale ⟨2 / t.size.width, 2 / t.size.height⟩)).merge
      (Transform.translate ⟨-1, -1⟩)
  if t.flipY then transform.merge (Transform.scale ⟨1, -1⟩) else transform

/-- The `(x, y, width, height)` arguments that `DrawTarget.readPixels`
(lines 66–71) passes to the device readback call: the flip-corrected
rectangle's origin and extent. -/
def DrawTarget.readPixelsArgs (t : DrawTarget) (rect : Rect) : ℚ × ℚ × ℚ × ℚ :=
  let rect := t._flipRect rect
  (rect.left, rect.top, rect.width, rect.height)

/-- Modelled from the spec: the pixel-buffer resource collaborator
(`Texture`), exposing an opaque storage handle, a size, a pixel type and a
pixel format. -/
structure Texture where
  texture : ℕ
  size : Vec2
  pixelType : String
  pixelFormat : String
deriving DecidableEq, Repr

/-- The `TextureDrawTarget`-specific state: the owned framebuffer handle and
the optional attached texture reference. -/
structure TextureDrawTarget where
  framebuffer : ℕ
  texture : Option Texture
deriving DecidableEq, Repr

/-- The `texture` setter from `src/DrawTarget.ts` lines 137–144: returns the
updated target together with the list of device calls it issues.  Only a
non-empty assignment binds the framebuffer and attaches the storage. -/
def TextureDrawTarget.setTexture (d : TextureDrawTarget) (texture : Option Texture) :
    TextureDrawTarget × List GLCall :=
  match texture with
  | some tex =>
    ({ d with texture := some tex },
     [GLCall.bindFramebuffer (some d.framebuffer),
      GLCall.framebufferTexture2D d.framebuffer tex.texture])
  | none => ({ d with texture := none }, [])

/-- `TextureDrawTarget.size` getter (lines 153–159). -/
def TextureDrawTarget.size (d : TextureDrawTarget) : Vec2 :=
  match d.texture with
  | some tex => tex.size
  | none => ⟨0, 0⟩

/-- `TextureDrawTarget.pixelType` getter (lines 161–167). -/
def TextureDrawTarget.pixelType (d : TextureDrawTarget) : String :=
  match d.texture with
  | some tex => tex.pixelType
  | none => "byte"

/-- `TextureDrawTarget.pixelFormat` getter (lines 169–175). -/
def TextureDrawTarget.pixelFormat (d : TextureDrawTarget) : String :=
  match d.texture with
  | some tex => tex.pixelFormat
  | none => "rgba"

/-- `TextureDrawTarget.dispose` (lines 183–186): deletes the owned
framebuffer, as a device-call trace. -/
def TextureDrawTarget.dispose (d : TextureDrawTarget) : List GLCall :=
  [GLCall.deleteFramebuffer d.framebuffer]

/-- The `CanvasDrawTarget`-specific state; it owns no device resources. -/
structure CanvasDrawTarget where
  canvasSize : Vec2
deriving DecidableEq, Repr

/-- `CanvasDrawTarget` does not override `dispose`, so it inherits the base
`DrawTarget.dispose` no-op (lines 100–101): no device calls issued. -/
def CanvasDrawTarget.dispose (_ : CanvasDrawTarget) : List GLCall := []

/-- Sample target with `flipY = true`, shared by concrete witnesses. -/
def sampleFlipTarget : DrawTarget :=
  ⟨⟨100, 50⟩, some ⟨⟨90, 0⟩, ⟨120, 10⟩⟩, true, Transform.identity⟩

/-- Sample target with `flipY = false`, shared by concrete witnesses. -/
def sampleNoFlipTarget : DrawTarget :=
  ⟨⟨100, 50⟩, some ⟨⟨90, 0⟩, ⟨120, 10⟩⟩, false, Transform.identity⟩

/-- Sample rectangle, shared by concrete witnesses. -/
def sampleRect : Rect := ⟨⟨90, 0⟩, ⟨120, 10⟩⟩

/-- Sample prior device state, shared by concrete witnesses; its stale
scissor rectangle must be overwritten by activation. -/
def sampleState : GLState := ⟨false, (1, 2, 3, 4), (7, 7, 7, 7)⟩

/-- C1: for every target whose scissor is set to `C` and every prior device
state, activation enables scissor testing and sets the mask rectangle to
`intBounding (flipRect C) ∩ [0,0]×size` when that intersection is non-empty,
and to `(0,0,0,0)` when it is empty — never leaving the prior mask. -/
theorem use_mask_rect (t : DrawTarget) (s : GLState) (C : Rect)
    (h : t.scissor = some C) :
    (t.use s).scissorTestEnabled = true ∧
      (t.use s).scissorRect =
        match ((t._flipRect C).intBounding).intersection ⟨⟨0, 0⟩, t.size⟩ with
        | some r => (r.left, r.top, r.width, r.height)
        | none => ((0 : ℚ), (0 : ℚ), (0 : ℚ), (0 : ℚ)) := by
  rcases hr : ((t._flipRect C).intBounding).intersection ⟨⟨0, 0⟩, t.size⟩ with _ | r <;>
    simp [DrawTarget.use, h, hr]

/-- Witness for C1 at the concrete scenario target and a stale prior state. -/
theorem use_mask_rect_witness :
    sampleNoFlipTarget.scissor = some sampleRect ∧
      ((sampleNoFlipTarget.use sampleState).scissorTestEnabled = true ∧
        (sampleNoFlipTarget.use sampleState).scissorRect =
          match ((sampleNoFlipTarget._flipRect sampleRect).intBounding).intersection
              ⟨⟨0, 0⟩, sampleNoFlipTarget.size⟩ with
          | some r => (r.left, r.top, r.width, r.height)
          | none => ((0 : ℚ), (0 : ℚ), (0 : ℚ), (0 : ℚ))) :=
  ⟨rfl, use_mask_rect sampleNoFlipTarget sampleState sampleRect rfl⟩

/-- C5: the spec scenario — target size `(100,50)`, clip rect
`(x=90, y=0, w=30, h=10)`.  Without flip the mask rectangle is
`(90,0,10,10)`; with flip the flipped rectangle spans `top=40` to
`bottom=50` and the mask rectangle is `(90,40,10,10)`. -/
theorem use_scenario :
    (sampleNoFlipTarget.use sampleState).scissorRect = (90, 0, 10, 10) ∧
      (sampleFlipTarget._flipRect sampleRect).top = 40 ∧
      (sampleFlipTarget._flipRect sampleRect).bottom = 50 ∧
      (sampleFlipTarget.use sampleState).scissorRect = (90, 40, 10, 10) := by
  refine ⟨?_, ?_, ?_, ?_⟩ <;>
    norm_num [sampleNoFlipTarget, sampleFlipTarget, sampleRect, sampleState,
      DrawTarget.use, DrawTarget._flipRect, Rect.intersection, Rect.intBounding,
      Vec2.floor, Vec2.ceil, Rect.left, Rect.top, Rect.right, Rect.bottom,
      Rect.width, Rect.height, Vec2.height]

/-- C4: for every target with `flipY = true` and every rectangle, the flip
correction helper is an involution: `_flipRect (_flipRect R) = R`. -/
theorem flipRect_involution (t : DrawTarget) (R : Rect) (h : t.flipY = true) :
    t._flipRect (t._flipRect R) = R := by
  obtain ⟨⟨lx, ly⟩, ⟨rx, ry⟩⟩ := R
  simp [DrawTarget._flipRect, h, Rect.left, Rect.right, Rect.top, Rect.bottom,
    Vec2.height, sub_sub_cancel]

/-- Witness for C4 at a concrete flipped target and rectangle. -/
theorem flipRect_involution_witness :
    sampleFlipTarget.flipY = true ∧
      sampleFlipTarget._flipRect (sampleFlipTarget._flipRect sampleRect) = sampleRect :=
  ⟨rfl, flipRect_involution sampleFlipTarget sampleRect rfl⟩

/-- C9: for every target with `flipY = false`, the flip correction helper is
the identity: `_flipRect R = R`. -/
theorem flipRect_id_of_not_flipY (t : DrawTarget) (R : Rect) (h : t.flipY = false) :
    t._flipRect R = R := by
  simp [DrawTarget._flipRect, h]

/-- Witness for C9 at a concrete unflipped target and rectangle. -/
theorem flipRect_id_of_not_flipY_witness :
    sampleNoFlipTarget.flipY = false ∧
      sampleNoFlipTarget._flipRect sampleRect = sampleRect :=
  ⟨rfl, flipRect_id_of_not_flipY sampleNoFlipTarget sampleRect rfl⟩

/-- C10: for every target (either flip setting) and every rectangle, the flip
correction preserves width and height, and hence `readPixels` issues a
readback of exactly `rect.width × rect.height` pixels. -/
theorem flipRect_preserves_extent (t : DrawTarget) (R : Rect) :
    (t._flipRect R).width = R.width ∧ (t._flipRect R).height = R.height ∧
      (t.readPixelsArgs R).2.2.1 = R.width ∧ (t.readPixelsArgs R).2.2.2 = R.height := by
  obtain ⟨⟨lx, ly⟩, ⟨rx, ry⟩⟩ := R
  by_cases h : t.flipY <;>
    simp [DrawTarget._flipRect, DrawTarget.readPixelsArgs, h, Rect.left, Rect.right,
      Rect.top, Rect.bottom, Rect.width, Rect.height, Vec2.height]

/-- The claim's reading of the effective transform: normalization (scale then
translate, then the optional flip) applied first, with the global transform
outermost, applied last to the output. -/
def DrawTarget.specEffectiveTransform (t : DrawTarget) : Transform :=
  let normalize :=
    (Transform.scale ⟨2 / t.size.width, 2 / t.size.height⟩).merge
      (Transform.translate ⟨-1, -1⟩)
  let normalizeFlip :=
    if t.flipY then normalize.merge (Transform.scale ⟨1, -1⟩) else normalize
  normalizeFlip.merge t.transform

/-- The pixel-to-NDC normalization of a target, with the optional vertical
flip folded in, written as a single explicit matrix. -/
def DrawTarget.normalizeTransform (t : DrawTarget) : Transform :=
  if t.flipY then
    ⟨2 / t.size.width, 0, 0, 0, -(2 / t.size.height), 0, -1, 1, 1⟩
  else
    ⟨2 / t.size.width, 0, 0, 0, 2 / t.size.height, 0, -1, -1, 1⟩

/-- Sample target with a non-identity (translation) global transform. -/
def sampleGlobalTarget : DrawTarget :=
  ⟨⟨4, 4⟩, none, false, Transform.translate ⟨1, 0⟩⟩

/-- C2: with the identity global transform, the effective draw transform maps
target pixel `(0,0)` to `(-1,-1)` and `(W,H)` to `(1,1)` when `flipY` is
false, and `(0,0)` to `(-1,1)` and `(W,H)` to `(1,-1)` when `flipY` is
true. -/
theorem drawTransform_corners (t : DrawTarget) (hid : t.transform = Transform.identity)
    (hW : 0 < t.size.x) (hH : 0 < t.size.y) :
    (t.flipY = false →
        (Vec2.mk 0 0).transform t.drawTransform = Vec2.mk (-1) (-1) ∧
          (Vec2.mk t.size.x t.size.y).transform t.drawTransform = Vec2.mk 1 1) ∧
      (t.flipY = true →
        (Vec2.mk 0 0).transform t.drawTransform = Vec2.mk (-1) 1 ∧
          (Vec2.mk t.size.x t.size.y).transform t.drawTransform = Vec2.mk 1 (-1)) := by
  obtain ⟨⟨W, H⟩, sc, flip, tr⟩ := t
  simp only at hid hW hH
  subst hid
  cases flip <;>
    simp [DrawTarget.drawTransform, Transform.merge, Transform.scale, Transform.translate,
      Transform.identity, Vec2.transform, Vec2.width, Vec2.height, Vec2.mk.injEq] <;>
    constructor <;> field_simp <;> norm_num

/-- Witness for C2 at the concrete scenario target of size `(100,50)`. -/
theorem drawTransform_corners_witness :
    sampleNoFlipTarget.transform = Transform.identity ∧
      (0 : ℚ) < sampleNoFlipTarget.size.x ∧ (0 : ℚ) < sampleNoFlipTarget.size.y ∧
      ((sampleNoFlipTarget.flipY = false →
          (Vec2.mk 0 0).transform sampleNoFlipTarget.drawTransform = Vec2.mk (-1) (-1) ∧
            (Vec2.mk sampleNoFlipTarget.size.x sampleNoFlipTarget.size.y).transform
                sampleNoFlipTarget.drawTransform = Vec2.mk 1 1) ∧
        (sampleNoFlipTarget.flipY = true →
          (Vec2.mk 0 0).transform sampleNoFlipTarget.drawTransform = Vec2.mk (-1) 1 ∧
            (Vec2.mk sampleNoFlipTarget.size.x sampleNoFlipTarget.size.y).transform
                sampleNoFlipTarget.drawTransform = Vec2.mk 1 (-1))) :=
  ⟨rfl, by norm_num [sampleNoFlipTarget], by norm_num [sampleNoFlipTarget],
    drawTransform_corners sampleNoFlipTarget rfl
      (by norm_num [sampleNoFlipTarget]) (by norm_num [sampleNoFlipTarget])⟩

/-- Counterexample to C3: at a target of size `(4,4)` whose global transform
translates by `(1,0)`, the effective transform computed by `draw` differs
from the claim's composition with the global transform applied last. -/
theorem drawTransform_global_order_counterexample :
    sampleGlobalTarget.drawTransform ≠ sampleGlobalTarget.specEffectiveTransform := by
  simp [sampleGlobalTarget, DrawTarget.drawTransform, DrawTarget.specEffectiveTransform,
    Transform.merge, Transform.scale, Transform.translate, Vec2.width, Vec2.height,
    Transform.mk.injEq]
  norm_num

set_option linter.unnecessarySeqFocus false in
/-- Amended C3: the effective transform equals the global transform merged
innermost — applied first, to points in target pixel space — followed by the
normalization-and-flip matrix `Scale(2/W, 2/H)` then `Translate(-1,-1)` then
the optional vertical flip. -/
theorem drawTransform_global_first (t : DrawTarget) :
    t.drawTransform = t.transform.merge t.normalizeTransform := by
  obtain ⟨⟨W, H⟩, sc, flip, ⟨a00, a01, a02, a10, a11, a12, a20, a21, a22⟩⟩ := t
  cases flip <;>
    simp [DrawTarget.drawTransform, DrawTarget.normalizeTransform, Transform.merge,
      Transform.scale, Transform.translate, Vec2.width, Vec2.height,
      Transform.mk.injEq] <;>
    and_intros <;> ring

/-- C6: assigning a texture to an offscreen target makes `size`, `pixelType`
and `pixelFormat` read back as that texture's values; assigning nothing makes
`size` read back as the zero extent and the pixel properties as the fixed
defaults `"byte"` / `"rgba"`. -/
theorem setTexture_updates_properties (d : TextureDrawTarget) (tex : Texture) :
    ((d.setTexture (some tex)).1.size = tex.size ∧
        (d.setTexture (some tex)).1.pixelType = tex.pixelType ∧
        (d.setTexture (some tex)).1.pixelFormat = tex.pixelFormat) ∧
      ((d.setTexture none).1.size = Vec2.mk 0 0 ∧
        (d.setTexture none).1.pixelType = "byte" ∧
        (d.setTexture none).1.pixelFormat = "rgba") := by
  simp [TextureDrawTarget.setTexture, TextureDrawTarget.size,
    TextureDrawTarget.pixelType, TextureDrawTarget.pixelFormat]

/-- Sample texture resource, shared by concrete counterexamples. -/
def sampleTexture : Texture := ⟨5, ⟨16, 16⟩, "byte", "rgba"⟩

/-- Sample offscreen target with an attached texture. -/
def sampleTextureTarget : TextureDrawTarget := ⟨3, some sampleTexture⟩

/-- Counterexample to C7: assigning the empty value to the attached-buffer
property issues no device calls at all — in particular it does not bind the
framebuffer nor re-establish the attachment binding. -/
theorem setTexture_empty_no_calls_counterexample :
    (sampleTextureTarget.setTexture none).2 = [] := rfl

/-- Amended C7: assigning a non-empty texture re-establishes the device-side
binding (binds the framebuffer, then attaches the texture's storage); the
empty assignment issues no device calls and only clears the stored
reference. -/
theorem setTexture_binding (d : TextureDrawTarget) (tex : Texture) :
    (d.setTexture (some tex)).2 =
        [GLCall.bindFramebuffer (some d.framebuffer),
          GLCall.framebufferTexture2D d.framebuffer tex.texture] ∧
      (d.setTexture none).2 = [] ∧ (d.setTexture none).1.texture = none := by
  simp [TextureDrawTarget.setTexture]

/-- C8: disposing an offscreen target deletes its owned framebuffer exactly
once and deletes no texture; disposing a canvas target issues no device calls
at all. -/
theorem dispose_behavior (d : TextureDrawTarget) (c : CanvasDrawTarget) :
    d.dispose = [GLCall.deleteFramebuffer d.framebuffer] ∧
      d.dispose.count (GLCall.deleteFramebuffer d.framebuffer) = 1 ∧
      (∀ tex, GLCall.deleteTexture tex ∉ d.dispose) ∧
      c.dispose = [] := by
  simp [TextureDrawTarget.dispose, CanvasDrawTarget.dispose]

end PaintGL
